import Mathlib

/-!
Shallow embedding of `src/bin/nats.rs` from the wadm repository: NATS
connection establishment (credential resolution, connect-option building)
and idempotent provisioning of JetStream streams and KV buckets.

Async I/O is modelled by threading an explicit filesystem (`FS`) and an
explicit broker state (`Broker`); fallible operations return `Except`.
-/

/-- An I/O error (the payload of a failed `tokio::fs` call), abstracted to
its message. -/
structure FsErr where
  msg : String
deriving DecidableEq, Repr

/-- The part of `std::fs::Metadata` the code consults: whether the path is a
regular file (`metadata.is_file()`). -/
structure Metadata where
  is_file : Bool
deriving DecidableEq, Repr

/-- A filesystem state: results of `tokio::fs::metadata` and
`tokio::fs::read_to_string` per path. -/
structure FS where
  metadata : String → Except FsErr Metadata
  readToString : String → Except FsErr String

/-- An `nkeys::KeyPair`, abstracted to the seed text it was derived from. -/
structure KeyPair where
  seed : String
deriving DecidableEq, Repr

/-- Environment for the credential-resolution functions: the filesystem
state plus the pure seed parser of the external `nkeys` crate
(`KeyPair::from_seed`), modelled as an uninterpreted function returning
`none` on an invalid seed encoding — no claim depends on which strings are
valid seed encodings. -/
structure Env where
  fs : FS
  from_seed : String → Option KeyPair

/-- Error taxonomy of the credential path (the code uses `anyhow` errors;
the distinct error sites are kept apart here). -/
inductive CredError where
  | invalidCombination
  | jwtReadError (e : FsErr)
  | seedReadError (e : FsErr)
  | badSeed
  | credsFileError (e : FsErr)
deriving DecidableEq, Repr

/-- The condition of `resolve_jwt`'s `if`:
`tokio::fs::metadata(p).await.map(|m| m.is_file()).unwrap_or(false)`. -/
def namesExistingFile (fs : FS) (p : String) : Bool :=
  match fs.metadata p with
  | Except.ok m => m.is_file
  | Except.error _ => false

/-- `resolve_jwt` from `src/bin/nats.rs`: if the input names an existing
regular file, read and return its contents (mapping a read error to a
credential error); otherwise return the input unchanged. -/
def resolve_jwt (fs : FS) (jwt_or_file : String) : Except CredError String :=
  if namesExistingFile fs jwt_or_file then
    match fs.readToString jwt_or_file with
    | Except.ok s => Except.ok s
    | Except.error e => Except.error (CredError.jwtReadError e)
  else
    Except.ok jwt_or_file

/-- `get_seed` from `src/bin/nats.rs`: a 58-byte string starting with `S` is
a literal seed; anything else is a path whose contents are read; the
resulting text is parsed by `nkeys::KeyPair::from_seed`. Rust's
`seed.starts_with('S')` is rendered as a first-character test, which agrees
with it on every string (the front of the empty string is the default
character `A`, not `S`). -/
def get_seed (env : Env) (seed : String) : Except CredError KeyPair := do
  let raw_seed ←
    if seed.utf8ByteSize == 58 && seed.front == 'S' then
      Except.ok seed
    else
      match env.fs.readToString seed with
      | Except.ok s => Except.ok s
      | Except.error e => Except.error (CredError.seedReadError e)
  match env.from_seed raw_seed with
  | some kp => Except.ok kp
  | none => Except.error CredError.badSeed

/-- `async_nats::ConnectOptions`, abstracted to its construction: either
JWT-plus-signing-key (the key held for the nonce-signing callback), or a
credentials file path handed to the transport. -/
inductive ConnectOptions where
  | with_jwt (jwt : String) (key : KeyPair)
  | with_credentials_file (path : String)
deriving DecidableEq, Repr

/-- `build_nats_options` from `src/bin/nats.rs`: the three-way `match` on
the optional seed, jwt and creds-path. `with_credentials_file` reads the
file at this point (it is fallible in `async_nats`), modelled as a read of
the path. -/
def build_nats_options (env : Env) (seed jwt creds_path : Option String) :
    Except CredError ConnectOptions :=
  match seed, jwt, creds_path with
  | some seed, some jwt, none => do
    let jwt ← resolve_jwt env.fs jwt
    let kp ← get_seed env seed
    Except.ok (ConnectOptions.with_jwt jwt kp)
  | none, none, some creds =>
    match env.fs.readToString creds with
    | Except.ok _ => Except.ok (ConnectOptions.with_credentials_file creds)
    | Except.error e => Except.error (CredError.credsFileError e)
  | _, _, _ => Except.error CredError.invalidCombination

/-- An `async_nats::Client`, abstracted to the URL it connected to and the
connect options used (`none` = anonymous `async_nats::connect`). -/
structure Client where
  url : String
  opts : Option ConnectOptions
deriving DecidableEq, Repr

/-- A JetStream `Context`: `jetstream::with_domain(client, domain)` or
`jetstream::new(client)`. -/
inductive Context where
  | with_domain (client : Client) (domain : String)
  | without_domain (client : Client)
deriving DecidableEq, Repr

/-- `get_client_and_context` from `src/bin/nats.rs`: anonymous connect when
all three auth inputs are absent, otherwise connect with the options built
by `build_nats_options`; then derive the JetStream context, scoped to
`js_domain` when present. -/
def get_client_and_context (env : Env) (url : String) (js_domain : Option String)
    (seed jwt creds_path : Option String) : Except CredError (Client × Context) :=
  let clientE : Except CredError Client :=
    if seed.isNone && jwt.isNone && creds_path.isNone then
      Except.ok { url := url, opts := none }
    else
      match build_nats_options env seed jwt creds_path with
      | Except.ok opts => Except.ok { url := url, opts := some opts }
      | Except.error e => Except.error e
  match clientE with
  | Except.error e => Except.error e
  | Except.ok client =>
    let context :=
      match js_domain with
      | some domain => Context.with_domain client domain
      | none => Context.without_domain client
    Except.ok (client, context)

/-- JetStream retention policies used by the three streams. -/
inductive RetentionPolicy where
  | Limits
  | Interest
  | WorkQueue
deriving DecidableEq, Repr

/-- JetStream storage types. -/
inductive StorageType where
  | File
  | Memory
deriving DecidableEq, Repr

/-- Modelled from the spec: `DEFAULT_EXPIRY_TIME` is imported from the wadm
library crate, whose source is outside this file set; the spec fixes only
that it is one shared "fixed default expiry" duration, not its value. The
concrete value here (7 days in nanoseconds) is a placeholder — every claim
uses only the constant's identity. -/
def DEFAULT_EXPIRY_TIME : Nat := 7 * 24 * 60 * 60 * 1000000000

/-- `async_nats::jetstream::stream::Config`, restricted to the fields the
code sets; the default values mirror `Config::default()` (zero replicas,
limits retention, file storage, zero max-age, rollup and direct-get off,
no per-subject cap). Durations are nanoseconds. -/
structure StreamConfig where
  name : String := ""
  description : Option String := none
  num_replicas : Nat := 0
  subjects : List String := []
  retention : RetentionPolicy := RetentionPolicy.Limits
  max_age : Nat := 0
  storage : StorageType := StorageType.File
  allow_rollup : Bool := false
  allow_direct : Bool := false
  max_messages_per_subject : Int := 0
deriving DecidableEq, Repr

/-- `async_nats::jetstream::kv::Config`, restricted to the fields the code
sets; defaults mirror `Config::default()`. -/
structure KvConfig where
  bucket : String := ""
  history : Int := 0
  num_replicas : Nat := 0
  storage : StorageType := StorageType.File
deriving DecidableEq, Repr

/-- Remote broker state: the streams and KV buckets that exist, each
represented by the config it was created with. -/
structure Broker where
  streams : List StreamConfig := []
  kv_buckets : List KvConfig := []
deriving DecidableEq, Repr

/-- `Context::get_or_create_stream`: return the stream of that name if it
exists (its existing config untouched), otherwise create it with the given
config. -/
def get_or_create_stream (b : Broker) (cfg : StreamConfig) : Broker × StreamConfig :=
  match b.streams.find? (fun s => s.name == cfg.name) with
  | some s => (b, s)
  | none => ({ b with streams := b.streams ++ [cfg] }, cfg)

/-- The stream config built by `ensure_stream` in `src/bin/nats.rs`. -/
def stream_config (name : String) (subjects : List String)
    (description : Option String) : StreamConfig :=
  { name := name,
    description := description,
    num_replicas := 1,
    retention := RetentionPolicy.WorkQueue,
    subjects := subjects,
    max_age := DEFAULT_EXPIRY_TIME,
    storage := StorageType.File,
    allow_rollup := false }

/-- `ensure_stream` from `src/bin/nats.rs`. -/
def ensure_stream (b : Broker) (name : String) (subjects : List String)
    (description : Option String) : Broker × StreamConfig :=
  get_or_create_stream b (stream_config name subjects description)

/-- The stream config built by `ensure_status_stream` in `src/bin/nats.rs`. -/
def status_stream_config (name : String) (subjects : List String) : StreamConfig :=
  { name := name,
    description := some "A stream that stores all status updates for wadm applications",
    num_replicas := 1,
    allow_direct := true,
    retention := RetentionPolicy.Limits,
    max_messages_per_subject := 10,
    subjects := subjects,
    max_age := 0,
    storage := StorageType.File }

/-- `ensure_status_stream` from `src/bin/nats.rs`. -/
def ensure_status_stream (b : Broker) (name : String) (subjects : List String) :
    Broker × StreamConfig :=
  get_or_create_stream b (status_stream_config name subjects)

/-- The stream config built by `ensure_notify_stream` in `src/bin/nats.rs`. -/
def notify_stream_config (name : String) (subjects : List String) : StreamConfig :=
  { name := name,
    description := some "A stream for capturing all notification events for wadm",
    num_replicas := 1,
    retention := RetentionPolicy.Interest,
    subjects := subjects,
    max_age := DEFAULT_EXPIRY_TIME,
    storage := StorageType.File }

/-- `ensure_notify_stream` from `src/bin/nats.rs`. -/
def ensure_notify_stream (b : Broker) (name : String) (subjects : List String) :
    Broker × StreamConfig :=
  get_or_create_stream b (notify_stream_config name subjects)

/-- `Context::get_key_value`: fetch an existing KV bucket by name. -/
def get_key_value (b : Broker) (name : String) : Option KvConfig :=
  b.kv_buckets.find? (fun k => k.bucket == name)

/-- `Context::create_key_value`: create a bucket with the given config. -/
def create_key_value (b : Broker) (cfg : KvConfig) : Broker × KvConfig :=
  ({ b with kv_buckets := b.kv_buckets ++ [cfg] }, cfg)

/-- `ensure_kv_bucket` from `src/bin/nats.rs`: fetch by name; on success
return the existing bucket; only on fetch failure create one with the
requested history, one replica, file storage. -/
def ensure_kv_bucket (b : Broker) (name : String) (history_to_keep : Int) :
    Broker × KvConfig :=
  match get_key_value b name with
  | some kv => (b, kv)
  | none =>
    create_key_value b
      { bucket := name,
        history := history_to_keep,
        num_replicas := 1,
        storage := StorageType.File }

/-- Validity predicate of §4.1 of the spec: exactly `(seed, jwt, none)` or
`(none, none, creds_path)`. -/
def valid_auth_combo (seed jwt creds_path : Option String) : Prop :=
  (seed.isSome = true ∧ jwt.isSome = true ∧ creds_path = none) ∨
  (seed = none ∧ jwt = none ∧ creds_path.isSome = true)

/-- A sample filesystem for witnesses: one readable regular file named
`jwtfile` containing `abc.def.ghi`; every other path fails to stat. -/
def fsSample : FS :=
  { metadata := fun p =>
      if p == "jwtfile" then Except.ok { is_file := true }
      else Except.error { msg := "ENOENT" },
    readToString := fun p =>
      if p == "jwtfile" then Except.ok "abc.def.ghi"
      else Except.error { msg := "ENOENT" } }

/-- A sample filesystem where every call fails (e.g. permission denied). -/
def fsDenied : FS :=
  { metadata := fun _ => Except.error { msg := "EACCES" },
    readToString := fun _ => Except.error { msg := "EACCES" } }

/-- A seed parser accepting every string, for witnesses. -/
def acceptAllSeeds (s : String) : Option KeyPair := some { seed := s }

/-- Sample environment for witnesses. -/
def envSample : Env := { fs := fsSample, from_seed := acceptAllSeeds }

/-- Sample environment with a failing filesystem, for witnesses. -/
def envDenied : Env := { fs := fsDenied, from_seed := acceptAllSeeds }

/-- A 58-byte literal seed string starting with `S`, for witnesses. -/
def seedSample : String := "SAAAAAAAAAAAAAAAAAAAAAAAAAAAAAAAAAAAAAAAAAAAAAAAAAAAAAAAAA"

/-- A broker with no streams and no buckets, for witnesses. -/
def emptyBroker : Broker := { streams := [], kv_buckets := [] }

/-- A broker already holding a `links` bucket with history 20, for
witnesses. -/
def brokerLinks : Broker :=
  { streams := [],
    kv_buckets := [{ bucket := "links", history := 20, num_replicas := 1,
                     storage := StorageType.File }] }

/-- C3: `ensure_status_stream`, for any name and subjects, requests a stream
configuration with limits-based retention, `max_messages_per_subject = 10`,
zero max-age, and `allow_direct = true`. -/
theorem ensure_status_stream_config_spec (name : String) (subjects : List String) :
    (status_stream_config name subjects).retention = RetentionPolicy.Limits ∧
    (status_stream_config name subjects).max_messages_per_subject = 10 ∧
    (status_stream_config name subjects).max_age = 0 ∧
    (status_stream_config name subjects).allow_direct = true ∧
    ∀ b : Broker, ensure_status_stream b name subjects =
      get_or_create_stream b (status_stream_config name subjects) :=
  ⟨rfl, rfl, rfl, rfl, fun _ => rfl⟩

/-- C7: every config requested by the three ensure operations has one
replica, file storage, and rollup disabled; the general stream uses
work-queue retention with the default expiry, the notify stream interest
retention with the default expiry. -/
theorem stream_configs_invariants (name : String) (subjects : List String)
    (description : Option String) :
    (stream_config name subjects description).num_replicas = 1 ∧
    (stream_config name subjects description).storage = StorageType.File ∧
    (stream_config name subjects description).allow_rollup = false ∧
    (status_stream_config name subjects).num_replicas = 1 ∧
    (status_stream_config name subjects).storage = StorageType.File ∧
    (status_stream_config name subjects).allow_rollup = false ∧
    (notify_stream_config name subjects).num_replicas = 1 ∧
    (notify_stream_config name subjects).storage = StorageType.File ∧
    (notify_stream_config name subjects).allow_rollup = false ∧
    (stream_config name subjects description).retention = RetentionPolicy.WorkQueue ∧
    (stream_config name subjects description).max_age = DEFAULT_EXPIRY_TIME ∧
    (notify_stream_config name subjects).retention = RetentionPolicy.Interest ∧
    (notify_stream_config name subjects).max_age = DEFAULT_EXPIRY_TIME :=
  ⟨rfl, rfl, rfl, rfl, rfl, rfl, rfl, rfl, rfl, rfl, rfl, rfl, rfl⟩

/-- C9: `build_nats_options` is total over the all-absent combination: with
seed, jwt and creds-path all `none` it returns the same invalid-combination
error as the other rejected combinations (only seed, only jwt, all three). -/
theorem build_nats_options_all_absent (env : Env) (s j c : String) :
    build_nats_options env none none none =
      Except.error CredError.invalidCombination ∧
    build_nats_options env none none none =
      build_nats_options env (some s) none none ∧
    build_nats_options env none none none =
      build_nats_options env none (some j) none ∧
    build_nats_options env none none none =
      build_nats_options env (some s) (some j) (some c) :=
  ⟨rfl, rfl, rfl, rfl⟩

/-- Helper: appending an element matching the predicate to a list on which
`find?` failed makes `find?` return that element. -/
theorem find?_append_of_none {α : Type} (p : α → Bool) (l : List α) (x : α)
    (h : l.find? p = none) (hx : p x = true) : (l ++ [x]).find? p = some x := by
  induction l with
  | nil => simp [List.find?, hx]
  | cons a t ih =>
    rw [List.find?] at h
    cases ha : p a with
    | true => rw [ha] at h; cases h
    | false =>
      rw [ha] at h
      rw [List.cons_append, List.find?, ha]
      exact ih h

/-- C1: `build_nats_options`, with at least one of the three inputs present,
succeeds only for the combinations (seed, jwt, no creds-path) and (no seed,
no jwt, creds-path); every other presence combination yields the
invalid-combination error. -/
theorem build_nats_options_valid_combos (env : Env) (seed jwt creds_path : Option String)
    (_hpresent : seed.isSome = true ∨ jwt.isSome = true ∨ creds_path.isSome = true) :
    ((∃ o, build_nats_options env seed jwt creds_path = Except.ok o) →
       valid_auth_combo seed jwt creds_path) ∧
    (¬ valid_auth_combo seed jwt creds_path →
       build_nats_options env seed jwt creds_path =
         Except.error CredError.invalidCombination) := by
  rcases seed with _ | s <;> rcases jwt with _ | j <;> rcases creds_path with _ | c <;>
    simp [build_nats_options, valid_auth_combo]

/-- C1 witness: the valid seed-and-jwt combination at concrete inputs. -/
theorem build_nats_options_valid_combos_check :
    ((∃ o, build_nats_options envSample (some seedSample) (some "jwtvalue") none =
        Except.ok o) →
       valid_auth_combo (some seedSample) (some "jwtvalue") none) ∧
    (¬ valid_auth_combo (some seedSample) (some "jwtvalue") none →
       build_nats_options envSample (some seedSample) (some "jwtvalue") none =
         Except.error CredError.invalidCombination) :=
  build_nats_options_valid_combos envSample (some seedSample) (some "jwtvalue") none
    (Or.inl rfl)

/-- C5: `get_seed` on a 58-byte input starting with `S` never consults the
filesystem: its result is identical under any two filesystem states (with
the pure external seed parser held fixed). -/
theorem get_seed_literal_filesystem_independent (e1 e2 : Env) (seed : String)
    (hfrom : e1.from_seed = e2.from_seed)
    (hlen : seed.utf8ByteSize = 58)
    (hS : (seed.front == 'S') = true) :
    get_seed e1 seed = get_seed e2 seed := by
  simp [get_seed, hlen, hS, hfrom]

/-- C5 witness: a concrete 58-byte literal seed under two filesystems that
disagree everywhere. -/
theorem get_seed_literal_filesystem_independent_check :
    get_seed envSample seedSample = get_seed envDenied seedSample :=
  get_seed_literal_filesystem_independent envSample envDenied seedSample rfl (by decide)
    (by decide)

/-- C4: `resolve_jwt` returns the input unchanged whenever it does not name
an existing regular file, returns the file contents when it names an
existing readable file, and fails only on a read error of an input that
does name an existing file. -/
theorem resolve_jwt_spec (fs gs : FS) (a b contents : String)
    (hnot : namesExistingFile fs a = false)
    (hfile : namesExistingFile fs b = true)
    (hread : fs.readToString b = Except.ok contents) :
    resolve_jwt fs a = Except.ok a ∧
    resolve_jwt fs b = Except.ok contents ∧
    ∀ p ce, resolve_jwt gs p = Except.error ce →
      namesExistingFile gs p = true ∧
      ∃ e2, gs.readToString p = Except.error e2 := by
  refine ⟨by simp [resolve_jwt, hnot], by simp [resolve_jwt, hfile, hread], ?_⟩
  intro p ce hres
  by_cases hf : namesExistingFile gs p = true
  · refine ⟨hf, ?_⟩
    cases hr : gs.readToString p with
    | error e2 => exact ⟨e2, rfl⟩
    | ok s => simp [resolve_jwt, hf, hr] at hres
  · simp [resolve_jwt, hf] at hres

/-- C4 witness: the sample filesystem with one readable file `jwtfile`. -/
theorem resolve_jwt_spec_check :
    resolve_jwt fsSample "nosuch" = Except.ok "nosuch" ∧
    resolve_jwt fsSample "jwtfile" = Except.ok "abc.def.ghi" ∧
    ∀ p ce, resolve_jwt fsSample p = Except.error ce →
      namesExistingFile fsSample p = true ∧
      ∃ e2, fsSample.readToString p = Except.error e2 :=
  resolve_jwt_spec fsSample fsSample "nosuch" "jwtfile" "abc.def.ghi" rfl rfl rfl

/-- C10: a metadata (stat) error in `resolve_jwt` is silently treated as
"not an existing file" and the input is returned unchanged; the only error
path is a failed read of a path whose metadata lookup succeeded and
reported a regular file. -/
theorem resolve_jwt_stat_error_tolerant (fs gs : FS) (input : String) (e : FsErr)
    (h : fs.metadata input = Except.error e) :
    resolve_jwt fs input = Except.ok input ∧
    ∀ p ce, resolve_jwt gs p = Except.error ce →
      ∃ m, gs.metadata p = Except.ok m ∧ m.is_file = true ∧
        ∃ e2, gs.readToString p = Except.error e2 ∧ ce = CredError.jwtReadError e2 := by
  refine ⟨by simp [resolve_jwt, namesExistingFile, h], ?_⟩
  intro p ce hres
  cases hm : gs.metadata p with
  | error e2 => simp [resolve_jwt, namesExistingFile, hm] at hres
  | ok m =>
    by_cases hf : m.is_file = true
    · cases hr : gs.readToString p with
      | error e2 =>
        have : ce = CredError.jwtReadError e2 := by
          simp [resolve_jwt, namesExistingFile, hm, hf, hr] at hres
          exact hres.symm
        exact ⟨m, rfl, hf, e2, rfl, this⟩
      | ok s => simp [resolve_jwt, namesExistingFile, hm, hf, hr] at hres
    · simp [resolve_jwt, namesExistingFile, hm, hf] at hres

/-- C10 witness: a filesystem denying every stat still resolves the input
to itself. -/
theorem resolve_jwt_stat_error_tolerant_check :
    resolve_jwt fsDenied "somepath" = Except.ok "somepath" ∧
    ∀ p ce, resolve_jwt fsSample p = Except.error ce →
      ∃ m, fsSample.metadata p = Except.ok m ∧ m.is_file = true ∧
        ∃ e2, fsSample.readToString p = Except.error e2 ∧
          ce = CredError.jwtReadError e2 :=
  resolve_jwt_stat_error_tolerant fsDenied fsSample "somepath" { msg := "EACCES" } rfl

/-- C2: `ensure_kv_bucket` returns an existing bucket unchanged, ignoring
the requested history; only on fetch failure does it create a bucket with
the requested history, one replica and file storage; a second call with the
same name returns the first call's bucket and issues no create. -/
theorem ensure_kv_bucket_first_write_wins (b bc b2 : Broker) (name : String)
    (h1 h2 hc : Int) (kv : KvConfig)
    (hfound : get_key_value b name = some kv)
    (habsent : get_key_value bc name = none) :
    ensure_kv_bucket b name h1 = (b, kv) ∧
    ensure_kv_bucket bc name hc =
      ({ bc with kv_buckets := bc.kv_buckets ++
          [{ bucket := name, history := hc, num_replicas := 1,
             storage := StorageType.File }] },
        { bucket := name, history := hc, num_replicas := 1,
          storage := StorageType.File }) ∧
    ensure_kv_bucket (ensure_kv_bucket b2 name h1).1 name h2 =
      ensure_kv_bucket b2 name h1 := by
  refine ⟨by simp [ensure_kv_bucket, hfound],
    by simp [ensure_kv_bucket, habsent, create_key_value], ?_⟩
  cases hg : get_key_value b2 name with
  | some kv2 => simp [ensure_kv_bucket, hg]
  | none =>
    have h0 : b2.kv_buckets.find? (fun k => k.bucket == name) = none := hg
    have hfind := find?_append_of_none (fun k => k.bucket == name) b2.kv_buckets
      { bucket := name, history := h1, num_replicas := 1,
        storage := StorageType.File } h0 (by simp)
    simp [ensure_kv_bucket, get_key_value, create_key_value, h0, hfind]

/-- C2 witness: creating `links` with history 20 on an empty broker, then
asking again with history 5, and fetching from a broker that already holds
the bucket. -/
theorem ensure_kv_bucket_first_write_wins_check :
    ensure_kv_bucket brokerLinks "links" 5 =
      (brokerLinks,
        { bucket := "links", history := 20, num_replicas := 1,
          storage := StorageType.File }) ∧
    ensure_kv_bucket emptyBroker "links" 20 =
      ({ emptyBroker with kv_buckets := emptyBroker.kv_buckets ++
          [{ bucket := "links", history := 20, num_replicas := 1,
             storage := StorageType.File }] },
        { bucket := "links", history := 20, num_replicas := 1,
          storage := StorageType.File }) ∧
    ensure_kv_bucket (ensure_kv_bucket emptyBroker "links" 20).1 "links" 5 =
      ensure_kv_bucket emptyBroker "links" 20 :=
  ensure_kv_bucket_first_write_wins brokerLinks emptyBroker emptyBroker "links"
    20 5 20 ⟨"links", 20, 1, StorageType.File⟩ rfl rfl

/-- C6: `get_client_and_context` connects with no authentication exactly
when seed, jwt and creds-path are all absent; when any is present it
connects with the options built by `build_nats_options`. -/
theorem get_client_and_context_auth_choice (env : Env) (url : String)
    (js_domain : Option String) (seed jwt creds_path : Option String)
    (client : Client) (context : Context)
    (h : get_client_and_context env url js_domain seed jwt creds_path =
      Except.ok (client, context)) :
    (client.opts = none ↔ (seed = none ∧ jwt = none ∧ creds_path = none)) ∧
    ((seed = none ∧ jwt = none ∧ creds_path = none) →
       client = { url := url, opts := none }) ∧
    (¬(seed = none ∧ jwt = none ∧ creds_path = none) →
       ∃ o, build_nats_options env seed jwt creds_path = Except.ok o ∧
         client = { url := url, opts := some o }) := by
  by_cases hall : seed = none ∧ jwt = none ∧ creds_path = none
  · obtain ⟨hs, hj, hc⟩ := hall
    subst hs; subst hj; subst hc
    simp [get_client_and_context] at h
    obtain ⟨hcl, -⟩ := h
    subst hcl
    exact ⟨by simp, fun _ => rfl, fun hno => absurd ⟨rfl, rfl, rfl⟩ hno⟩
  · have hcond : (seed.isNone && jwt.isNone && creds_path.isNone) = false := by
      rcases seed with _ | s
      · rcases jwt with _ | j
        · rcases creds_path with _ | c
          · exact absurd ⟨rfl, rfl, rfl⟩ hall
          · simp
        · simp
      · simp
    cases hb : build_nats_options env seed jwt creds_path with
    | error e => simp [get_client_and_context, hcond, hb] at h
    | ok o =>
      simp [get_client_and_context, hcond, hb] at h
      obtain ⟨hcl, -⟩ := h
      subst hcl
      exact ⟨by simp [hall], fun h2 => absurd h2 hall, fun _ => ⟨o, rfl, rfl⟩⟩

/-- C6 witness: an anonymous connection at concrete inputs. -/
theorem get_client_and_context_auth_choice_check :
    ((⟨"nats://h", none⟩ : Client).opts = none ↔
      ((none : Option String) = none ∧ (none : Option String) = none ∧
        (none : Option String) = none)) ∧
    (((none : Option String) = none ∧ (none : Option String) = none ∧
        (none : Option String) = none) →
      (⟨"nats://h", none⟩ : Client) = { url := "nats://h", opts := none }) ∧
    (¬((none : Option String) = none ∧ (none : Option String) = none ∧
        (none : Option String) = none) →
      ∃ o, build_nats_options envSample none none none = Except.ok o ∧
        (⟨"nats://h", none⟩ : Client) = { url := "nats://h", opts := some o }) :=
  get_client_and_context_auth_choice envSample "nats://h" none none none none
    ⟨"nats://h", none⟩ (Context.without_domain ⟨"nats://h", none⟩) rfl
